import Mathlib

/-!
Verification development for the serialization core of `rust-systemd`
(`src/serialize.rs`): a shallow embedding of the `Decoder`/`Encoder`
pair that bridges Rust `Encodable`/`Decodable` types and
`Vec<dbus::MessageItem>` wire values, together with theorems settling
the specification's claims about it.

Modelling conventions:
- Rust machine integers are modelled as `Int` (unsigned values carry a
  non-negative range hypothesis where it matters); `v as u8` /
  `v as u32` / `v as i32` casts are explicit modular arithmetic.
- `f64` is modelled opaquely by the type `F64`: the code never computes
  with doubles, it only stores them and renders them with `Display`,
  so an `F64` is represented by its `Display` rendering.
- A Rust panic (a failing `assert!`, `.unwrap()` on `Err`/`None`) is a
  distinct outcome constructor `panic`, separate from the value-level
  error constructors, so "returns an error value" and "panics" are
  distinguishable propositions.
- The decoder's `Vec` stack (top at the `Vec`'s end) is represented as
  a `List` whose head is the stack top.  `Decoder::new` reverses its
  input so that popping yields the items in original order; under the
  list representation the initial stack is therefore the input list
  itself, and `Vec::push` is consing onto the head.
- `dbus::MessageItem` is an external crate type; it is modelled from
  the spec's wire grammar (section 6): `Bool | Byte | Int16 | UInt16 |
  Int32 | UInt32 | Int64 | UInt64 | Double | Str | ObjectPath |
  Array(elements, length) | Struct(fields)`.  Its derived `Debug`
  rendering (used in error messages via `format!("{:?}", v)`) is
  modelled by `MessageItem.debugFmt`.
-/

/-- Opaque model of a Rust `f64`: the serializer stores doubles and renders
them with `Display` but never computes with them, so a double is represented
by its `Display` rendering. -/
structure F64 where
  render : String
deriving DecidableEq

/-- Conversion `i as f64` used by `read_f64`'s integer arms; an
integer-valued double `Display`s as the plain decimal integer (exactness
above 2^53 is not modelled; no claim depends on it). -/
def F64.ofInt (i : Int) : F64 := ⟨toString i⟩

/-- Model of `dbus::MessageItem` (the spec's WireValue grammar, section 6). -/
inductive MessageItem where
  | Bool (b : Bool)
  | Byte (v : Int)
  | Int16 (v : Int)
  | UInt16 (v : Int)
  | Int32 (v : Int)
  | UInt32 (v : Int)
  | Int64 (v : Int)
  | UInt64 (v : Int)
  | Double (v : F64)
  | Str (s : String)
  | ObjectPath (s : String)
  | Array (items : List MessageItem) (len : Int)
  | Struct (items : List MessageItem)

/-- Rust `Debug` rendering of a string literal (quotes around the content;
escape sequences inside the content are not modelled, no claim uses them). -/
def debugStrLit (s : String) : String := "\"" ++ s ++ "\""

mutual

/-- Derived `Debug` rendering of a `MessageItem`, as produced by
`format!("{:?}", v)` in the decoder's error messages. -/
def MessageItem.debugFmt : MessageItem → String
  | .Bool b => "Bool(" ++ (if b then "true" else "false") ++ ")"
  | .Byte v => "Byte(" ++ toString v ++ ")"
  | .Int16 v => "Int16(" ++ toString v ++ ")"
  | .UInt16 v => "UInt16(" ++ toString v ++ ")"
  | .Int32 v => "Int32(" ++ toString v ++ ")"
  | .UInt32 v => "UInt32(" ++ toString v ++ ")"
  | .Int64 v => "Int64(" ++ toString v ++ ")"
  | .UInt64 v => "UInt64(" ++ toString v ++ ")"
  | .Double v => "Double(" ++ v.render ++ ")"
  | .Str s => "Str(" ++ debugStrLit s ++ ")"
  | .ObjectPath s => "ObjectPath(" ++ debugStrLit s ++ ")"
  | .Array xs n => "Array([" ++ MessageItem.debugFmtList xs ++ "], " ++ toString n ++ ")"
  | .Struct xs => "Struct([" ++ MessageItem.debugFmtList xs ++ "])"

/-- Comma-separated `Debug` rendering of a list of `MessageItem`s. -/
def MessageItem.debugFmtList : List MessageItem → String
  | [] => ""
  | [x] => MessageItem.debugFmt x
  | x :: xs => MessageItem.debugFmt x ++ ", " ++ MessageItem.debugFmtList xs

end

/-- Model of `DecoderError` (src/serialize.rs, lines 31-41). -/
inductive DecoderError where
  | NotImplemented (s : String)
  | ExpectedError (expected actual : String)
  | UnknownVariantError (name : String)
  | ApplicationError (s : String)
deriving DecidableEq

/-- The decoder's working stack (`Decoder.stack : Vec<MessageItem>`),
head = stack top. -/
abbrev Stack := List MessageItem

/-- Outcome of one decoder step: a panic, a value-level `DecoderError`,
or a result together with the remaining stack. -/
inductive DOut (α : Type) where
  | panic (msg : String)
  | err (e : DecoderError)
  | ok (a : α) (stack : Stack)

/-- A decoder computation: a state-passing function over the working stack. -/
def DecodeM (α : Type) : Type := Stack → DOut α

/-- Sequencing of decoder steps (the `try!` discipline of the source:
errors and panics abort, results thread the stack). -/
def DecodeM.bind {α β : Type} (m : DecodeM α) (f : α → DecodeM β) : DecodeM β :=
  fun st =>
    match m st with
    | .panic msg => .panic msg
    | .err e => .err e
    | .ok a st' => f a st'

namespace Decoder

/-- Model of `Decoder::pop` (lines 49-54): `assert!` fires on an empty
stack (a panic), otherwise the top item is removed and returned. -/
def pop : DecodeM MessageItem := fun st =>
  match st with
  | [] => .panic "Nothing to pop"
  | v :: rest => .ok v rest

end Decoder

/-- Model of `std::num::cast` as used by `read_int!`: the checked numeric
cast into the target type's range `[lo, hi]` succeeds exactly when the
value is representable there, preserving the value. -/
def numCast (lo hi v : Int) : Option Int :=
  if lo ≤ v ∧ v ≤ hi then some v else none

/-- Model of the `read_int!` macro body (lines 91-124), parameterized by
the target integer type's range: each of the six integer wire kinds is
accepted through the checked cast (overflow gives
`ExpectedError("Number", Display)`), `Double` gives
`ExpectedError("Integer", Display)`, and every other kind (including
`Byte`) gives `ExpectedError("Number", Debug)`. -/
def readIntAs (lo hi : Int) : DecodeM Int :=
  DecodeM.bind Decoder.pop fun item => fun st =>
    match item with
    | .Int16 f =>
      match numCast lo hi f with
      | some v => .ok v st
      | none => .err (.ExpectedError "Number" (toString f))
    | .Int32 f =>
      match numCast lo hi f with
      | some v => .ok v st
      | none => .err (.ExpectedError "Number" (toString f))
    | .Int64 f =>
      match numCast lo hi f with
      | some v => .ok v st
      | none => .err (.ExpectedError "Number" (toString f))
    | .UInt16 f =>
      match numCast lo hi f with
      | some v => .ok v st
      | none => .err (.ExpectedError "Number" (toString f))
    | .UInt32 f =>
      match numCast lo hi f with
      | some v => .ok v st
      | none => .err (.ExpectedError "Number" (toString f))
    | .UInt64 f =>
      match numCast lo hi f with
      | some v => .ok v st
      | none => .err (.ExpectedError "Number" (toString f))
    | .Double f => .err (.ExpectedError "Integer" f.render)
    | value => .err (.ExpectedError "Number" value.debugFmt)

namespace Decoder

/-- `read_usize` (usize modelled as 64-bit). -/
def read_usize : DecodeM Int := readIntAs 0 (2 ^ 64 - 1)

/-- Model of `read_u8` (instantiation of `read_int!`). -/
def read_u8 : DecodeM Int := readIntAs 0 255

/-- Model of `read_u16`. -/
def read_u16 : DecodeM Int := readIntAs 0 (2 ^ 16 - 1)

/-- Model of `read_u32`. -/
def read_u32 : DecodeM Int := readIntAs 0 (2 ^ 32 - 1)

/-- Model of `read_u64`. -/
def read_u64 : DecodeM Int := readIntAs 0 (2 ^ 64 - 1)

/-- Model of `read_isize` (isize modelled as 64-bit). -/
def read_isize : DecodeM Int := readIntAs (-(2 ^ 63)) (2 ^ 63 - 1)

/-- Model of `read_i8`. -/
def read_i8 : DecodeM Int := readIntAs (-128) 127

/-- Model of `read_i16`. -/
def read_i16 : DecodeM Int := readIntAs (-(2 ^ 15)) (2 ^ 15 - 1)

/-- Model of `read_i32`. -/
def read_i32 : DecodeM Int := readIntAs (-(2 ^ 31)) (2 ^ 31 - 1)

/-- Model of `read_i64`. -/
def read_i64 : DecodeM Int := readIntAs (-(2 ^ 63)) (2 ^ 63 - 1)

/-- Model of `read_nil` (lines 129-132): `assert!(false, "not implemented")`
fires before the `Err(NotImplemented(...))` is reached. -/
def read_nil : DecodeM Unit := fun _ => .panic "not implemented"

/-- Model of `read_f64` (lines 149-160): integer kinds widen via `as f64`,
`Double` passes through, other kinds give `ExpectedError("Number", Debug)`. -/
def read_f64 : DecodeM F64 :=
  DecodeM.bind Decoder.pop fun item => fun st =>
    match item with
    | .Int16 f => .ok (F64.ofInt f) st
    | .Int32 f => .ok (F64.ofInt f) st
    | .Int64 f => .ok (F64.ofInt f) st
    | .UInt16 f => .ok (F64.ofInt f) st
    | .UInt32 f => .ok (F64.ofInt f) st
    | .UInt64 f => .ok (F64.ofInt f) st
    | .Double f => .ok f st
    | value => .err (.ExpectedError "Number" value.debugFmt)

/-- Model of `read_bool` (lines 162-164), the expansion of
`expect!(self.pop(), Bool)`. -/
def read_bool : DecodeM Bool :=
  DecodeM.bind Decoder.pop fun item => fun st =>
    match item with
    | .Bool v => .ok v st
    | other => .err (.ExpectedError "Bool" other.debugFmt)

/-- Model of `read_str` (lines 179-187): `Str` and `ObjectPath` both decode
as strings; anything else gives `ExpectedError("Str", Debug)`. -/
def read_str : DecodeM String :=
  DecodeM.bind Decoder.pop fun item => fun st =>
    match item with
    | .Str v => .ok v st
    | .ObjectPath v => .ok v st
    | other => .err (.ExpectedError "Str" other.debugFmt)

/-- Model of `read_enum` (lines 189-193): delegates to its continuation. -/
def read_enum {α : Type} (_name : String) (f : DecodeM α) : DecodeM α := f

end Decoder

/-- Model of `Iterator::position` as used by `read_enum_variant`:
index of the first element satisfying the predicate. -/
def listPosition (p : String → Bool) : List String → Option Nat
  | [] => none
  | x :: xs => if p x then some 0 else (listPosition p xs).map (· + 1)

namespace Decoder

/-- Model of `read_enum_variant` (lines 195-210): pop one value; only a
`Str` proceeds (any other kind, `ObjectPath` included, gives
`ExpectedError("String or Object", Debug)`); the tag is matched against
the declared names by exact string equality, an unmatched tag gives
`UnknownVariantError(tag)`, a matched one dispatches on its index. -/
def read_enum_variant {α : Type} (names : List String) (f : Nat → DecodeM α) :
    DecodeM α :=
  DecodeM.bind Decoder.pop fun item => fun st =>
    match item with
    | .Str s =>
      match listPosition (fun n => n == s) names with
      | some idx => f idx st
      | none => .err (.UnknownVariantError s)
    | v => .err (.ExpectedError "String or Object" v.debugFmt)

/-- Model of `read_enum_variant_arg` (lines 212-216): delegates. -/
def read_enum_variant_arg {α : Type} (_idx : Nat) (f : DecodeM α) : DecodeM α := f

/-- Model of `read_enum_struct_variant` (lines 218-222): same as
`read_enum_variant`. -/
def read_enum_struct_variant {α : Type} (names : List String)
    (f : Nat → DecodeM α) : DecodeM α :=
  read_enum_variant names f

/-- Model of `read_enum_struct_variant_field` (lines 225-233): same as
`read_enum_variant_arg`: the field is read from the same working stack. -/
def read_enum_struct_variant_field {α : Type} (_name : String) (idx : Nat)
    (f : DecodeM α) : DecodeM α :=
  read_enum_variant_arg idx f

/-- Model of `read_struct` (lines 235-242): pop one value, require a
`Struct`, decode the body from a fresh decoder over its children;
the outer stack is untouched by the body. -/
def read_struct {α : Type} (_name : String) (_len : Nat) (f : DecodeM α) :
    DecodeM α :=
  DecodeM.bind Decoder.pop fun item => fun st =>
    match item with
    | .Struct s =>
      match f s with
      | .panic msg => .panic msg
      | .err e => .err e
      | .ok a _ => .ok a st
    | other => .err (.ExpectedError "Struct" other.debugFmt)

/-- Model of `read_struct_field` (lines 244-253): runs the field decoder
on the same decoder and returns its value. -/
def read_struct_field {α : Type} (_name : String) (_idx : Nat)
    (f : DecodeM α) : DecodeM α := f

/-- Model of `read_option` (lines 292-298): pop a value, push it back and
call the continuation with `true` ("present"); never a `NotImplemented`. -/
def read_option {α : Type} (f : Bool → DecodeM α) : DecodeM α :=
  DecodeM.bind Decoder.pop fun v => fun st => f true (v :: st)

/-- Model of `read_seq` (lines 300-308): pop one value, require an `Array`,
push its elements back so they pop in order, pass the declared length
through `num::cast(len).unwrap()` (an `i32` to `usize` cast: negative
lengths make the `unwrap` panic). -/
def read_seq {α : Type} (f : Nat → DecodeM α) : DecodeM α :=
  DecodeM.bind Decoder.pop fun item => fun st =>
    match item with
    | .Array arr len =>
      if len < 0 then DOut.panic "called Option::unwrap() on a None value"
      else f len.toNat (arr ++ st)
    | other => .err (.ExpectedError "Array" other.debugFmt)

/-- Model of `read_seq_elt` (lines 310-314): delegates. -/
def read_seq_elt {α : Type} (_idx : Nat) (f : DecodeM α) : DecodeM α := f

/-- Model of `read_map` (lines 316-321): `assert!(false, "not implemented")`
fires before the `Err(NotImplemented("map"))` is reached. -/
def read_map {α : Type} (_f : Nat → DecodeM α) : DecodeM α :=
  fun _ => .panic "not implemented"

end Decoder

/-- Overall outcome of a top-level `encode`/`decode` call: a panic, a
value-level error, or a result. -/
inductive Outcome (ε α : Type) where
  | panic (msg : String)
  | err (e : ε)
  | ok (a : α)

/-- Model of the top-level `decode` entry point (lines 341-344): build a
decoder over the item sequence (`Decoder::new` reverses it, so under the
list representation the initial stack is the input itself) and run the
target type's decode; leftover stack items are not an error. -/
def decode {α : Type} (f : DecodeM α) (items : List MessageItem) :
    Outcome DecoderError α :=
  match f items with
  | .panic msg => .panic msg
  | .err e => .err e
  | .ok a _ => .ok a

/-- Model of `EncoderError` (src/serialize.rs, lines 347-353). -/
inductive EncoderError where
  | EncodeNotImplemented (s : String)
  | InternalEncodeError (s : String)
deriving DecidableEq

/-- Derived `Debug` rendering of an `EncoderError`, used in the message of
the panic that `.unwrap()` raises on an `Err`. -/
def EncoderError.debugFmt : EncoderError → String
  | .EncodeNotImplemented s => "EncodeNotImplemented(" ++ debugStrLit s ++ ")"
  | .InternalEncodeError s => "InternalEncodeError(" ++ debugStrLit s ++ ")"

/-- Model of the private `EncoderValue` accumulator (lines 359-364): the
encoder's three accumulation modes. -/
inductive EncoderValue where
  | Scalar (v : Option MessageItem)
  | Array (items : List MessageItem)
  | Struct (items : List MessageItem)

/-- Outcome of one encoder step: a panic, a value-level `EncoderError`
together with the encoder state at the point of failure (the Rust error
return leaves the encoder alive), or a result with the updated state. -/
inductive EOut (α : Type) where
  | panic (msg : String)
  | err (e : EncoderError) (enc : EncoderValue)
  | ok (a : α) (enc : EncoderValue)

/-- An encoder computation: a state-passing function over the accumulator. -/
def EncodeM (α : Type) : Type := EncoderValue → EOut α

/-- Sequencing of encoder steps (`try!` discipline: errors and panics
abort, results thread the accumulator state). -/
def EncodeM.bind {α β : Type} (m : EncodeM α) (f : α → EncodeM β) : EncodeM β :=
  fun r =>
    match m r with
    | .panic msg => .panic msg
    | .err e r' => .err e r'
    | .ok a r' => f a r'

/-- Message of the panic raised by `Result::unwrap()` on an `Err`, carrying
the error's `Debug` rendering. -/
def unwrapMsg (e : EncoderError) : String :=
  "called Result::unwrap() on an Err value: " ++ e.debugFmt

namespace Encoder

/-- Model of `Encoder::emit` (lines 377-396): a `Scalar` accumulator takes
at most one value (a second gives `InternalEncodeError` and leaves the
stored value unchanged); `Array` and `Struct` accumulators append. -/
def emit (v : MessageItem) : EncodeM Unit := fun r =>
  match r with
  | .Scalar none => .ok () (.Scalar (some v))
  | .Scalar (some x) =>
    .err (.InternalEncodeError "Item already has a value") (.Scalar (some x))
  | .Array xs => .ok () (.Array (xs ++ [v]))
  | .Struct xs => .ok () (.Struct (xs ++ [v]))

/-- Conversion `n as i32` applied to a `usize` (`Vec::len`), used when an
`Array` accumulator is finalized. -/
def lenAsI32 (n : Nat) : Int :=
  let m : Int := (n : Int) % 2 ^ 32
  if m < 2 ^ 31 then m else m - 2 ^ 32

/-- Model of `Encoder::value` (lines 398-412): finalize the accumulator
into one `MessageItem`; an empty `Scalar` is an `InternalEncodeError`. -/
def value : EncoderValue → Except EncoderError MessageItem
  | .Scalar none => .error (.InternalEncodeError "no value set")
  | .Scalar (some v) => .ok v
  | .Struct v => .ok (.Struct v)
  | .Array v => .ok (.Array v (lenAsI32 v.length))

end Encoder

/-- Model of the top-level `encode` entry point (lines 416-422): run the
value's structural encode on a fresh `Scalar` encoder and finalize it. -/
def encode (f : EncodeM Unit) : Outcome EncoderError MessageItem :=
  match f (.Scalar none) with
  | .panic msg => .panic msg
  | .err e _ => .err e
  | .ok _ r =>
    match Encoder.value r with
    | .error e => .err e
    | .ok v => .ok v

namespace Encoder

/-- Model of `emit_nil` (lines 427-429). -/
def emit_nil : EncodeM Unit := fun r =>
  .err (.EncodeNotImplemented "Encoding not implemented for nil") r

/-- Model of `emit_usize` (lines 431-433): `usize` (modelled as 64-bit) is
truncated by `v as u32` and written as `UInt32`. -/
def emit_usize (v : Int) : EncodeM Unit := emit (.UInt32 (v % 2 ^ 32))

/-- Model of `emit_u64` (lines 435-437). -/
def emit_u64 (v : Int) : EncodeM Unit := emit (.UInt64 v)

/-- Model of `emit_u32` (lines 439-441). -/
def emit_u32 (v : Int) : EncodeM Unit := emit (.UInt32 v)

/-- Model of `emit_u16` (lines 443-445). -/
def emit_u16 (v : Int) : EncodeM Unit := emit (.UInt16 v)

/-- Model of `emit_u8` (lines 447-449): an 8-bit unsigned writes as `Byte`. -/
def emit_u8 (v : Int) : EncodeM Unit := emit (.Byte v)

/-- Conversion `v as i32` applied to an `isize` (64-bit): two's-complement
truncation to 32 bits. -/
def asI32 (v : Int) : Int :=
  let m := v % 2 ^ 32
  if m < 2 ^ 31 then m else m - 2 ^ 32

/-- Model of `emit_isize` (lines 451-453): `isize` is truncated by
`v as i32` and written as `Int32`. -/
def emit_isize (v : Int) : EncodeM Unit := emit (.Int32 (asI32 v))

/-- Model of `emit_i64` (lines 455-457). -/
def emit_i64 (v : Int) : EncodeM Unit := emit (.Int64 v)

/-- Model of `emit_i32` (lines 459-461). -/
def emit_i32 (v : Int) : EncodeM Unit := emit (.Int32 v)

/-- Model of `emit_i16` (lines 463-465). -/
def emit_i16 (v : Int) : EncodeM Unit := emit (.Int16 v)

/-- Model of `emit_i8` (lines 467-469): `v as u8` reinterprets the signed
byte (`Int.emod` by 256 yields the two's-complement representative) and
writes it as `Byte`. -/
def emit_i8 (v : Int) : EncodeM Unit := emit (.Byte (v % 256))

/-- Model of `emit_bool` (lines 471-473). -/
def emit_bool (v : Bool) : EncodeM Unit := emit (.Bool v)

/-- Model of `emit_f64` (lines 475-477). -/
def emit_f64 (v : F64) : EncodeM Unit := emit (.Double v)

/-- Model of `emit_char` (lines 483-485). -/
def emit_char : EncodeM Unit := fun r =>
  .err (.EncodeNotImplemented "Encode not implemented for char") r

/-- Model of `emit_str` (lines 487-489). -/
def emit_str (v : String) : EncodeM Unit := emit (.Str v)

/-- Model of `emit_enum` (lines 491-497): `f(self).unwrap()` — an inner
error is not propagated as a value but panics. -/
def emit_enum (_name : String) (f : EncodeM Unit) : EncodeM Unit := fun r =>
  match f r with
  | .panic msg => .panic msg
  | .err e _ => .panic (unwrapMsg e)
  | .ok _ r' => .ok () r'

/-- Lower-casing of one ASCII character. -/
def asciiLowerChar (c : Char) : Char :=
  if 'A' ≤ c ∧ c ≤ 'Z' then Char.ofNat (c.toNat + 32) else c

end Encoder

/-- Model of `str::to_ascii_lowercase`. -/
def asciiLowercase (s : String) : String := ⟨s.data.map Encoder.asciiLowerChar⟩

namespace Encoder

/-- Model of `emit_enum_variant` (lines 499-511): emits the variant's name
lower-cased as a `Str` (the continuation is ignored: unit-like variants
carry no payload on the wire); the `.unwrap()` on the emit panics if the
accumulator rejects it. -/
def emit_enum_variant (name : String) (_id _cnt : Nat) (_f : EncodeM Unit) :
    EncodeM Unit := fun r =>
  match emit (.Str (asciiLowercase name)) r with
  | .panic msg => .panic msg
  | .err e _ => .panic (unwrapMsg e)
  | .ok _ r' => .ok () r'

/-- Model of `emit_enum_variant_arg` (lines 513-518). -/
def emit_enum_variant_arg (_idx : Nat) (_f : EncodeM Unit) : EncodeM Unit :=
  fun r =>
    .err (.EncodeNotImplemented "Encode not implemented for enum variant arg") r

/-- Model of `emit_enum_struct_variant` (lines 520-531): run the fields
into a fresh `Struct`-mode encoder (inner errors propagate via `try!`),
finalize it and emit the resulting `Struct` value — the variant name is
not emitted. -/
def emit_enum_struct_variant (_name : String) (_id _cnt : Nat)
    (f : EncodeM Unit) : EncodeM Unit := fun r =>
  match f (.Struct []) with
  | .panic msg => .panic msg
  | .err e _ => .err e r
  | .ok _ enc =>
    match Encoder.value enc with
    | .error e => .err e r
    | .ok v => emit v r

/-- Model of `emit_enum_struct_variant_field` (lines 533-542):
`f(self).unwrap()` — an inner error panics. -/
def emit_enum_struct_variant_field (_name : String) (_idx : Nat)
    (f : EncodeM Unit) : EncodeM Unit := fun r =>
  match f r with
  | .panic msg => .panic msg
  | .err e _ => .panic (unwrapMsg e)
  | .ok _ r' => .ok () r'

/-- Model of `emit_struct` (lines 545-551): run the fields into a fresh
`Struct`-mode encoder (inner errors propagate via `try!`), finalize it and
emit the resulting `Struct` value. -/
def emit_struct (_name : String) (_len : Nat) (f : EncodeM Unit) :
    EncodeM Unit := fun r =>
  match f (.Struct []) with
  | .panic msg => .panic msg
  | .err e _ => .err e r
  | .ok _ enc =>
    match Encoder.value enc with
    | .error e => .err e r
    | .ok v => emit v r

/-- Model of `emit_struct_field` (lines 553-558): `f(self).unwrap()` — an
inner error panics. -/
def emit_struct_field (_name : String) (_idx : Nat) (f : EncodeM Unit) :
    EncodeM Unit := fun r =>
  match f r with
  | .panic msg => .panic msg
  | .err e _ => .panic (unwrapMsg e)
  | .ok _ r' => .ok () r'

/-- Model of `emit_tuple` (lines 560-564). -/
def emit_tuple (_len : Nat) (_f : EncodeM Unit) : EncodeM Unit := fun r =>
  .err (.EncodeNotImplemented "Encode not implemented for tuple") r

/-- Model of `emit_option` (lines 584-588). -/
def emit_option (_f : EncodeM Unit) : EncodeM Unit := fun r =>
  .err (.EncodeNotImplemented "Encode not implemented for Option") r

/-- Model of `emit_option_none` (lines 590-592). -/
def emit_option_none : EncodeM Unit := fun r =>
  .err (.EncodeNotImplemented "Encode not implemented for Option::None") r

/-- Model of `emit_option_some` (lines 594-598). -/
def emit_option_some (_f : EncodeM Unit) : EncodeM Unit := fun r =>
  .err (.EncodeNotImplemented "Encode not implemented for Option::Some") r

/-- Model of `emit_seq` (lines 600-606): run the elements into a fresh
`Array`-mode encoder, finalize it and emit the resulting `Array` value. -/
def emit_seq (_len : Nat) (f : EncodeM Unit) : EncodeM Unit := fun r =>
  match f (.Array []) with
  | .panic msg => .panic msg
  | .err e _ => .err e r
  | .ok _ enc =>
    match Encoder.value enc with
    | .error e => .err e r
    | .ok v => emit v r

/-- Model of `emit_seq_elt` (lines 608-612): runs the element encoder on
the same encoder, propagating its result. -/
def emit_seq_elt (_idx : Nat) (f : EncodeM Unit) : EncodeM Unit := f

/-- Model of `emit_map` (lines 614-618). -/
def emit_map (_len : Nat) (_f : EncodeM Unit) : EncodeM Unit := fun r =>
  .err (.EncodeNotImplemented "Encode not implemented for map") r

end Encoder

/-- A no-op encode continuation, the `|_| Ok(())` closure that derived
`Encodable` code passes for a unit-like enum variant. -/
def encNop : EncodeM Unit := fun r => .ok () r

/-- The test enum of the source's test module (`TestEnum { A, B }`), used
by the spec's enum examples. -/
inductive TestEnum where
  | A
  | B
deriving DecidableEq

/-- Derived `Encodable` impl for `TestEnum` (one `emit_enum_variant` call
per unit-like variant with the declared name, index and arity 0). -/
def TestEnum.enc : TestEnum → EncodeM Unit
  | .A => Encoder.emit_enum "TestEnum" (Encoder.emit_enum_variant "A" 0 0 encNop)
  | .B => Encoder.emit_enum "TestEnum" (Encoder.emit_enum_variant "B" 1 0 encNop)

/-- Derived `Decodable` impl for `TestEnum` (`read_enum` over
`read_enum_variant` with the declared names, dispatching on the matched
index; an out-of-range index is unreachable in derived code). -/
def TestEnum.dec : DecodeM TestEnum :=
  Decoder.read_enum "TestEnum" (Decoder.read_enum_variant ["A", "B"] fun idx =>
    match idx with
    | 0 => fun st => .ok TestEnum.A st
    | 1 => fun st => .ok TestEnum.B st
    | _ => fun _ => .panic "internal error: entered unreachable code")

/-- An enum with a single struct-like variant `V { x: i64 }`, exercising
the struct-variant encode/decode paths. -/
inductive EV where
  | V (x : Int)
deriving DecidableEq

/-- Derived `Encodable` impl for `EV`: `emit_enum` over
`emit_enum_struct_variant` with one `emit_enum_struct_variant_field`. -/
def EV.enc : EV → EncodeM Unit
  | .V x =>
    Encoder.emit_enum "EV" (Encoder.emit_enum_struct_variant "V" 0 1
      (Encoder.emit_enum_struct_variant_field "x" 0 (Encoder.emit_i64 x)))

/-- Derived `Decodable` impl for `EV`: `read_enum` over
`read_enum_struct_variant` with one `read_enum_struct_variant_field`. -/
def EV.dec : DecodeM EV :=
  Decoder.read_enum "EV" (Decoder.read_enum_struct_variant ["V"] fun idx =>
    match idx with
    | 0 =>
      DecodeM.bind (Decoder.read_enum_struct_variant_field "x" 0 Decoder.read_i64)
        (fun x => fun st => .ok (EV.V x) st)
    | _ => fun _ => .panic "internal error: entered unreachable code")

lemma numCast_some {lo hi v : Int} (h1 : lo ≤ v) (h2 : v ≤ hi) :
    numCast lo hi v = some v :=
  if_pos ⟨h1, h2⟩

lemma numCast_none {lo hi v : Int} (h : ¬(lo ≤ v ∧ v ≤ hi)) :
    numCast lo hi v = none :=
  if_neg h

lemma listPosition_eq_none {s : String} :
    ∀ names : List String, (∀ n ∈ names, n ≠ s) →
      listPosition (fun n => n == s) names = none := by
  intro names
  induction names with
  | nil => intro; rfl
  | cons x xs ih =>
    intro h
    have hx : (x == s) = false :=
      beq_eq_false_iff_ne.mpr (h x (List.mem_cons_self x xs))
    have hxs := ih (fun n hn => h n (List.mem_cons_of_mem x hn))
    simp [listPosition, hx, hxs]

lemma readIntAs_int16 {lo hi v : Int} (st : Stack) (h1 : lo ≤ v) (h2 : v ≤ hi) :
    readIntAs lo hi (.Int16 v :: st) = .ok v st := by
  simp [readIntAs, DecodeM.bind, Decoder.pop, numCast_some h1 h2]

lemma readIntAs_int32 {lo hi v : Int} (st : Stack) (h1 : lo ≤ v) (h2 : v ≤ hi) :
    readIntAs lo hi (.Int32 v :: st) = .ok v st := by
  simp [readIntAs, DecodeM.bind, Decoder.pop, numCast_some h1 h2]

lemma readIntAs_int64 {lo hi v : Int} (st : Stack) (h1 : lo ≤ v) (h2 : v ≤ hi) :
    readIntAs lo hi (.Int64 v :: st) = .ok v st := by
  simp [readIntAs, DecodeM.bind, Decoder.pop, numCast_some h1 h2]

lemma readIntAs_uint16 {lo hi v : Int} (st : Stack) (h1 : lo ≤ v) (h2 : v ≤ hi) :
    readIntAs lo hi (.UInt16 v :: st) = .ok v st := by
  simp [readIntAs, DecodeM.bind, Decoder.pop, numCast_some h1 h2]

lemma readIntAs_uint32 {lo hi v : Int} (st : Stack) (h1 : lo ≤ v) (h2 : v ≤ hi) :
    readIntAs lo hi (.UInt32 v :: st) = .ok v st := by
  simp [readIntAs, DecodeM.bind, Decoder.pop, numCast_some h1 h2]

lemma readIntAs_uint64 {lo hi v : Int} (st : Stack) (h1 : lo ≤ v) (h2 : v ≤ hi) :
    readIntAs lo hi (.UInt64 v :: st) = .ok v st := by
  simp [readIntAs, DecodeM.bind, Decoder.pop, numCast_some h1 h2]

lemma readIntAs_int64_overflow {lo hi v : Int} (st : Stack)
    (h : ¬(lo ≤ v ∧ v ≤ hi)) :
    readIntAs lo hi (.Int64 v :: st) =
      .err (.ExpectedError "Number" (toString v)) := by
  simp [readIntAs, DecodeM.bind, Decoder.pop, numCast_none h]

lemma decode_eq_ok {α : Type} {f : DecodeM α} {items : Stack} {a : α}
    {st : Stack} (h : f items = .ok a st) : decode f items = .ok a := by
  simp [decode, h]

lemma decode_eq_err {α : Type} {f : DecodeM α} {items : Stack}
    {e : DecoderError} (h : f items = .err e) : decode f items = .err e := by
  simp [decode, h]

/-- C9: a `Scalar`-mode encoder rejects a second emitted value with
`InternalEncodeError` and leaves the stored value unchanged; `Array` and
`Struct` accumulators append every emitted value; hence a value whose
structural encode emits two scalars into the top-level `Scalar` context
makes `encode` fail with `InternalEncodeError`. -/
theorem C9_scalar_emit_once (v w : MessageItem) (xs : List MessageItem) :
    Encoder.emit w (.Scalar (some v)) =
      .err (.InternalEncodeError "Item already has a value") (.Scalar (some v)) ∧
    Encoder.emit w (.Scalar none) = .ok () (.Scalar (some w)) ∧
    Encoder.emit w (.Array xs) = .ok () (.Array (xs ++ [w])) ∧
    Encoder.emit w (.Struct xs) = .ok () (.Struct (xs ++ [w])) ∧
    encode (EncodeM.bind (Encoder.emit_bool true) fun _ => Encoder.emit_i64 1) =
      .err (.InternalEncodeError "Item already has a value") :=
  ⟨rfl, rfl, rfl, rfl, rfl⟩

/-- C8: encoding a unit-like enum variant yields the variant's declared
name lower-cased as a `Str`; in particular encoding `TestEnum::A` (of the
two-variant enum `{A, B}`) yields `Str("a")`. -/
theorem C8_enum_variant_lowercase (name : String) (idv cnt : Nat)
    (f : EncodeM Unit) :
    encode (Encoder.emit_enum "E" (Encoder.emit_enum_variant name idv cnt f)) =
      .ok (.Str (asciiLowercase name)) ∧
    encode (TestEnum.enc TestEnum.A) = .ok (.Str "a") ∧
    encode (TestEnum.enc TestEnum.B) = .ok (.Str "b") :=
  ⟨rfl, rfl, rfl⟩

/-- C2 counterexample: decoding a map does not return the `NotImplemented`
error value — the `assert!(false, "not implemented")` in `read_map` fires
first, a panic; and decoding an option does not fail at all — `read_option`
treats the next value as present and delegates (here yielding `Ok(true)`). -/
theorem C2_counterexample :
    decode (Decoder.read_map fun _ => Decoder.read_bool) [] =
      .panic "not implemented" ∧
    decode (Decoder.read_option fun _ => Decoder.read_bool) [.Bool true] =
      .ok true :=
  ⟨rfl, rfl⟩

/-- C2 (amended): encoding a map or option value fails with the
corresponding `EncodeNotImplemented` error value, never panicking; on the
decode side, however, `read_map` panics via `assert!(false)` instead of
returning `NotImplemented`, and `read_option` does not fail at all — it
pushes the popped value back and delegates with "present". -/
theorem C2_amended (n : Nat) (f : EncodeM Unit) (g : Bool → DecodeM Bool)
    (k : Nat → DecodeM Bool) (r : EncoderValue) (st : Stack) (v : MessageItem) :
    Encoder.emit_map n f r =
      .err (.EncodeNotImplemented "Encode not implemented for map") r ∧
    Encoder.emit_option f r =
      .err (.EncodeNotImplemented "Encode not implemented for Option") r ∧
    Encoder.emit_option_none r =
      .err (.EncodeNotImplemented "Encode not implemented for Option::None") r ∧
    Encoder.emit_option_some f r =
      .err (.EncodeNotImplemented "Encode not implemented for Option::Some") r ∧
    Decoder.read_map k st = .panic "not implemented" ∧
    Decoder.read_option g (v :: st) = g true (v :: st) :=
  ⟨rfl, rfl, rfl, rfl, rfl, rfl⟩

/-- C3 counterexample: `emit_struct_field` calls `f(self).unwrap()`, so an
inner error (here the `EncodeNotImplemented` from a map field) is turned
into a panic instead of being returned to the caller. -/
theorem C3_counterexample :
    Encoder.emit_struct_field "x" 0 (Encoder.emit_map 0 encNop) (.Struct []) =
      .panic (unwrapMsg (.EncodeNotImplemented "Encode not implemented for map")) :=
  rfl

/-- C3 (amended): the decoder's structural steps and the encoder's
`emit_struct`/`emit_enum_struct_variant`/`emit_seq` return an inner error
as a value to their caller, but `emit_struct_field`, `emit_enum` and
`emit_enum_struct_variant_field` call `.unwrap()` on the inner result and
so turn an inner error into a panic. -/
theorem C3_amended (f g fa : EncodeM Unit) (r r1 r2 r3 : EncoderValue)
    (e : EncoderError)
    (hf : f (.Struct []) = .err e r1)
    (hfa : fa (.Array []) = .err e r3)
    (hg : g r = .err e r2) :
    Encoder.emit_struct "S" 1 f r = .err e r ∧
    Encoder.emit_enum_struct_variant "V" 0 1 f r = .err e r ∧
    Encoder.emit_seq 1 fa r = .err e r ∧
    Encoder.emit_struct_field "x" 0 g r = .panic (unwrapMsg e) ∧
    Encoder.emit_enum "E" g r = .panic (unwrapMsg e) ∧
    Encoder.emit_enum_struct_variant_field "x" 0 g r = .panic (unwrapMsg e) ∧
    (∀ (k : DecodeM Int) (st : Stack), Decoder.read_struct_field "i" 0 k st = k st) ∧
    (∀ (k : DecodeM Int) (st : Stack), Decoder.read_seq_elt 0 k st = k st) := by
  refine ⟨?_, ?_, ?_, ?_, ?_, ?_, fun k st => rfl, fun k st => rfl⟩
  · simp [Encoder.emit_struct, hf]
  · simp [Encoder.emit_enum_struct_variant, hf]
  · simp [Encoder.emit_seq, hfa]
  · simp [Encoder.emit_struct_field, hg]
  · simp [Encoder.emit_enum, hg]
  · simp [Encoder.emit_enum_struct_variant_field, hg]

/-- C3 witness: the amended statement at concrete inputs (a failing map
field inside a struct context). -/
theorem C3_amended_witness :
    Encoder.emit_struct "S" 1 (Encoder.emit_map 0 encNop) (.Scalar none) =
      .err (.EncodeNotImplemented "Encode not implemented for map") (.Scalar none) ∧
    Encoder.emit_enum_struct_variant "V" 0 1 (Encoder.emit_map 0 encNop) (.Scalar none) =
      .err (.EncodeNotImplemented "Encode not implemented for map") (.Scalar none) ∧
    Encoder.emit_seq 1 (Encoder.emit_map 0 encNop) (.Scalar none) =
      .err (.EncodeNotImplemented "Encode not implemented for map") (.Scalar none) ∧
    Encoder.emit_struct_field "x" 0 (Encoder.emit_map 0 encNop) (.Scalar none) =
      .panic (unwrapMsg (.EncodeNotImplemented "Encode not implemented for map")) ∧
    Encoder.emit_enum "E" (Encoder.emit_map 0 encNop) (.Scalar none) =
      .panic (unwrapMsg (.EncodeNotImplemented "Encode not implemented for map")) ∧
    Encoder.emit_enum_struct_variant_field "x" 0 (Encoder.emit_map 0 encNop) (.Scalar none) =
      .panic (unwrapMsg (.EncodeNotImplemented "Encode not implemented for map")) ∧
    (∀ (k : DecodeM Int) (st : Stack), Decoder.read_struct_field "i" 0 k st = k st) ∧
    (∀ (k : DecodeM Int) (st : Stack), Decoder.read_seq_elt 0 k st = k st) :=
  C3_amended (Encoder.emit_map 0 encNop) (Encoder.emit_map 0 encNop)
    (Encoder.emit_map 0 encNop) (.Scalar none) (.Struct []) (.Scalar none)
    (.Array []) (.EncodeNotImplemented "Encode not implemented for map")
    rfl rfl rfl

/-- C4 counterexample: the write table is not lossless — `emit_usize`
truncates with `v as u32`, so the distinct usize values `2^32` and `0`
write the same wire value `UInt32(0)`; and a write can fail — emitting
into a `Scalar` accumulator that already holds a value returns
`InternalEncodeError`. -/
theorem C4_counterexample :
    Encoder.emit_usize (2 ^ 32) (.Scalar none) =
      .ok () (.Scalar (some (.UInt32 0))) ∧
    Encoder.emit_usize 0 (.Scalar none) = .ok () (.Scalar (some (.UInt32 0))) ∧
    Encoder.emit_u8 1 (.Scalar (some (.Bool true))) =
      .err (.InternalEncodeError "Item already has a value")
        (.Scalar (some (.Bool true))) := by
  refine ⟨?_, rfl, rfl⟩
  show Encoder.emit (.UInt32 ((2 ^ 32 : Int) % 2 ^ 32)) _ = _
  norm_num [Encoder.emit]

/-- C4 (amended): each primitive width writes as a single fixed
`MessageItem` constructor (u8 as `Byte`, u16 as `UInt16`, u32/usize as
`UInt32`, u64 as `UInt64`, i8 as `Byte` of the two's-complement byte,
i16 as `Int16`, i32/isize as `Int32`, i64 as `Int64`, bool as `Bool`,
f64 as `Double`, strings as `Str`); the write succeeds whenever the
accumulator accepts the value (always in `Array`/`Struct` mode, only on
the first emit in `Scalar` mode), but the table is not lossless for
usize/isize, which are truncated to 32 bits. -/
theorem C4_write_table (b : Bool) (d : F64) (s : String)
    (u8v u16v u32v u64v uszv i8v i16v i32v i64v iszv : Int) :
    Encoder.emit_u8 u8v (.Scalar none) = .ok () (.Scalar (some (.Byte u8v))) ∧
    Encoder.emit_u16 u16v (.Scalar none) = .ok () (.Scalar (some (.UInt16 u16v))) ∧
    Encoder.emit_u32 u32v (.Scalar none) = .ok () (.Scalar (some (.UInt32 u32v))) ∧
    Encoder.emit_u64 u64v (.Scalar none) = .ok () (.Scalar (some (.UInt64 u64v))) ∧
    Encoder.emit_usize uszv (.Scalar none) =
      .ok () (.Scalar (some (.UInt32 (uszv % 2 ^ 32)))) ∧
    Encoder.emit_i8 i8v (.Scalar none) =
      .ok () (.Scalar (some (.Byte (i8v % 256)))) ∧
    Encoder.emit_i16 i16v (.Scalar none) = .ok () (.Scalar (some (.Int16 i16v))) ∧
    Encoder.emit_i32 i32v (.Scalar none) = .ok () (.Scalar (some (.Int32 i32v))) ∧
    Encoder.emit_i64 i64v (.Scalar none) = .ok () (.Scalar (some (.Int64 i64v))) ∧
    Encoder.emit_isize iszv (.Scalar none) =
      .ok () (.Scalar (some (.Int32 (Encoder.asI32 iszv)))) ∧
    Encoder.emit_bool b (.Scalar none) = .ok () (.Scalar (some (.Bool b))) ∧
    Encoder.emit_f64 d (.Scalar none) = .ok () (.Scalar (some (.Double d))) ∧
    Encoder.emit_str s (.Scalar none) = .ok () (.Scalar (some (.Str s))) ∧
    Encoder.emit_u8 u8v (.Scalar (some (.Bool b))) =
      .err (.InternalEncodeError "Item already has a value")
        (.Scalar (some (.Bool b))) ∧
    Encoder.emit_u8 u8v (.Struct []) = .ok () (.Struct [.Byte u8v]) :=
  ⟨rfl, rfl, rfl, rfl, rfl, rfl, rfl, rfl, rfl, rfl, rfl, rfl, rfl, rfl, rfl⟩

/-- C1 counterexample: the round-trip fails for the width u8 — `emit_u8`
writes `Byte(0)`, but `read_int!` has no `Byte` arm, so decoding the
singleton sequence falls into the catch-all and errs instead of
returning `Ok(0)`. -/
theorem C1_counterexample :
    encode (Encoder.emit_u8 0) = .ok (.Byte 0) ∧
    decode Decoder.read_u8 [.Byte 0] = .err (.ExpectedError "Number" "Byte(0)") ∧
    decode Decoder.read_u8 [.Byte 0] ≠ .ok 0 := by
  refine ⟨rfl, rfl, ?_⟩
  intro h
  exact Outcome.noConfusion h

/-- C1 (amended): the scalar round-trip `decode(vec![encode(v)]) = Ok(v)`
holds for the widths u16, u32, u64, i16, i32, i64, bool, f64 and String
over every representable value, and for usize/isize only on values
representable in 32 bits (wider values are truncated by the encoder); it
fails for u8 and i8, whose encoding `Byte` is not accepted by the integer
reads. -/
theorem C1_amended_roundtrip
    (b : Bool) (d : F64) (s : String)
    (u16v u32v u64v uszv i16v i32v i64v iszv : Int)
    (hu16 : 0 ≤ u16v ∧ u16v ≤ 2 ^ 16 - 1)
    (hu32 : 0 ≤ u32v ∧ u32v ≤ 2 ^ 32 - 1)
    (hu64 : 0 ≤ u64v ∧ u64v ≤ 2 ^ 64 - 1)
    (husz : 0 ≤ uszv ∧ uszv ≤ 2 ^ 32 - 1)
    (hi16 : -(2 ^ 15) ≤ i16v ∧ i16v ≤ 2 ^ 15 - 1)
    (hi32 : -(2 ^ 31) ≤ i32v ∧ i32v ≤ 2 ^ 31 - 1)
    (hi64 : -(2 ^ 63) ≤ i64v ∧ i64v ≤ 2 ^ 63 - 1)
    (hisz : -(2 ^ 31) ≤ iszv ∧ iszv ≤ 2 ^ 31 - 1) :
    (encode (Encoder.emit_u16 u16v) = .ok (.UInt16 u16v) ∧
      decode Decoder.read_u16 [.UInt16 u16v] = .ok u16v) ∧
    (encode (Encoder.emit_u32 u32v) = .ok (.UInt32 u32v) ∧
      decode Decoder.read_u32 [.UInt32 u32v] = .ok u32v) ∧
    (encode (Encoder.emit_u64 u64v) = .ok (.UInt64 u64v) ∧
      decode Decoder.read_u64 [.UInt64 u64v] = .ok u64v) ∧
    (encode (Encoder.emit_usize uszv) = .ok (.UInt32 uszv) ∧
      decode Decoder.read_usize [.UInt32 uszv] = .ok uszv) ∧
    (encode (Encoder.emit_i16 i16v) = .ok (.Int16 i16v) ∧
      decode Decoder.read_i16 [.Int16 i16v] = .ok i16v) ∧
    (encode (Encoder.emit_i32 i32v) = .ok (.Int32 i32v) ∧
      decode Decoder.read_i32 [.Int32 i32v] = .ok i32v) ∧
    (encode (Encoder.emit_i64 i64v) = .ok (.Int64 i64v) ∧
      decode Decoder.read_i64 [.Int64 i64v] = .ok i64v) ∧
    (encode (Encoder.emit_isize iszv) = .ok (.Int32 iszv) ∧
      decode Decoder.read_isize [.Int32 iszv] = .ok iszv) ∧
    (encode (Encoder.emit_bool b) = .ok (.Bool b) ∧
      decode Decoder.read_bool [.Bool b] = .ok b) ∧
    (encode (Encoder.emit_f64 d) = .ok (.Double d) ∧
      decode Decoder.read_f64 [.Double d] = .ok d) ∧
    (encode (Encoder.emit_str s) = .ok (.Str s) ∧
      decode Decoder.read_str [.Str s] = .ok s) := by
  obtain ⟨h1, h2⟩ := hu16
  obtain ⟨h3, h4⟩ := hu32
  obtain ⟨h5, h6⟩ := hu64
  obtain ⟨h7, h8⟩ := husz
  obtain ⟨h9, h10⟩ := hi16
  obtain ⟨h11, h12⟩ := hi32
  obtain ⟨h13, h14⟩ := hi64
  obtain ⟨h15, h16⟩ := hisz
  have husz' : uszv % 2 ^ 32 = uszv := Int.emod_eq_of_lt h7 (by omega)
  have hisz' : Encoder.asI32 iszv = iszv := by
    simp only [Encoder.asI32]
    split <;> omega
  refine ⟨⟨rfl, ?_⟩, ⟨rfl, ?_⟩, ⟨rfl, ?_⟩, ⟨?_, ?_⟩, ⟨rfl, ?_⟩, ⟨rfl, ?_⟩,
    ⟨rfl, ?_⟩, ⟨?_, ?_⟩, ⟨rfl, rfl⟩, ⟨rfl, rfl⟩, ⟨rfl, rfl⟩⟩
  · exact decode_eq_ok (readIntAs_uint16 [] h1 h2)
  · exact decode_eq_ok (readIntAs_uint32 [] h3 h4)
  · exact decode_eq_ok (readIntAs_uint64 [] h5 h6)
  · show encode (Encoder.emit (.UInt32 (uszv % 2 ^ 32))) = _
    rw [husz']
    rfl
  · exact decode_eq_ok (readIntAs_uint32 [] h7 (by omega))
  · exact decode_eq_ok (readIntAs_int16 [] (by omega) (by omega))
  · exact decode_eq_ok (readIntAs_int32 [] (by omega) (by omega))
  · exact decode_eq_ok (readIntAs_int64 [] h13 h14)
  · show encode (Encoder.emit (.Int32 (Encoder.asI32 iszv))) = _
    rw [hisz']
    rfl
  · exact decode_eq_ok (readIntAs_int32 [] (by omega) (by omega))

/-- C1 witness: the amended round-trip at concrete values of every
supported width. -/
theorem C1_amended_roundtrip_witness :
    (encode (Encoder.emit_u16 1) = .ok (.UInt16 1) ∧
      decode Decoder.read_u16 [.UInt16 1] = .ok 1) ∧
    (encode (Encoder.emit_u32 2) = .ok (.UInt32 2) ∧
      decode Decoder.read_u32 [.UInt32 2] = .ok 2) ∧
    (encode (Encoder.emit_u64 3) = .ok (.UInt64 3) ∧
      decode Decoder.read_u64 [.UInt64 3] = .ok 3) ∧
    (encode (Encoder.emit_usize 4) = .ok (.UInt32 4) ∧
      decode Decoder.read_usize [.UInt32 4] = .ok 4) ∧
    (encode (Encoder.emit_i16 (-5)) = .ok (.Int16 (-5)) ∧
      decode Decoder.read_i16 [.Int16 (-5)] = .ok (-5)) ∧
    (encode (Encoder.emit_i32 (-6)) = .ok (.Int32 (-6)) ∧
      decode Decoder.read_i32 [.Int32 (-6)] = .ok (-6)) ∧
    (encode (Encoder.emit_i64 (-7)) = .ok (.Int64 (-7)) ∧
      decode Decoder.read_i64 [.Int64 (-7)] = .ok (-7)) ∧
    (encode (Encoder.emit_isize (-8)) = .ok (.Int32 (-8)) ∧
      decode Decoder.read_isize [.Int32 (-8)] = .ok (-8)) ∧
    (encode (Encoder.emit_bool true) = .ok (.Bool true) ∧
      decode Decoder.read_bool [.Bool true] = .ok true) ∧
    (encode (Encoder.emit_f64 ⟨"2.5"⟩) = .ok (.Double ⟨"2.5"⟩) ∧
      decode Decoder.read_f64 [.Double ⟨"2.5"⟩] = .ok ⟨"2.5"⟩) ∧
    (encode (Encoder.emit_str "x") = .ok (.Str "x") ∧
      decode Decoder.read_str [.Str "x"] = .ok "x") :=
  C1_amended_roundtrip true ⟨"2.5"⟩ "x" 1 2 3 4 (-5) (-6) (-7) (-8)
    (by decide) (by decide) (by decide) (by decide) (by decide) (by decide)
    (by decide) (by decide)

/-- C5 counterexample: a popped `Double` does not fail with
`ExpectedError("Number", ...)` as claimed — the `Double` arm of
`read_int!` produces `ExpectedError("Integer", <rendered-value>)`. -/
theorem C5_counterexample :
    decode Decoder.read_u8 [.Double ⟨"1.5"⟩] =
      .err (.ExpectedError "Integer" "1.5") ∧
    decode Decoder.read_u8 [.Double ⟨"1.5"⟩] ≠
      .err (.ExpectedError "Number" "1.5") := by
  refine ⟨rfl, ?_⟩
  intro h
  injection h with h1
  injection h1 with h2 h3
  exact absurd h2 (by decide)

/-- C5 (amended): an integer-target decode accepts any of the six integer
wire kinds `Int16/Int32/Int64/UInt16/UInt32/UInt64` through the checked
cast; it fails with `ExpectedError("Number", <rendered-value>)` when the
cast would overflow the target width and when the popped value is a
non-numeric kind, but a popped `Double` fails with
`ExpectedError("Integer", <rendered-value>)`; in particular
`Int64(99999)` into u8 gives `ExpectedError("Number", "99999")`. -/
theorem C5_read_int_table (v w : Int) (d : F64) (st : Stack)
    (hv : 0 ≤ v ∧ v ≤ 255) (hw : ¬(0 ≤ w ∧ w ≤ 255)) :
    Decoder.read_u8 (.Int16 v :: st) = .ok v st ∧
    Decoder.read_u8 (.Int32 v :: st) = .ok v st ∧
    Decoder.read_u8 (.Int64 v :: st) = .ok v st ∧
    Decoder.read_u8 (.UInt16 v :: st) = .ok v st ∧
    Decoder.read_u8 (.UInt32 v :: st) = .ok v st ∧
    Decoder.read_u8 (.UInt64 v :: st) = .ok v st ∧
    Decoder.read_u8 (.Int64 w :: st) =
      .err (.ExpectedError "Number" (toString w)) ∧
    Decoder.read_u8 (.Double d :: st) =
      .err (.ExpectedError "Integer" d.render) ∧
    Decoder.read_u8 (.Str "x" :: st) =
      .err (.ExpectedError "Number" (MessageItem.Str "x").debugFmt) ∧
    decode Decoder.read_u8 [.Int64 99999] =
      .err (.ExpectedError "Number" "99999") := by
  obtain ⟨h1, h2⟩ := hv
  exact ⟨readIntAs_int16 st h1 h2, readIntAs_int32 st h1 h2,
    readIntAs_int64 st h1 h2, readIntAs_uint16 st h1 h2,
    readIntAs_uint32 st h1 h2, readIntAs_uint64 st h1 h2,
    readIntAs_int64_overflow st hw, rfl, rfl, rfl⟩

/-- C5 witness: the amended integer-read table at concrete inputs
(in-range value 7, overflowing value 99999, the double 1.5). -/
theorem C5_read_int_table_witness :
    Decoder.read_u8 [.Int16 7] = .ok 7 [] ∧
    Decoder.read_u8 [.Int32 7] = .ok 7 [] ∧
    Decoder.read_u8 [.Int64 7] = .ok 7 [] ∧
    Decoder.read_u8 [.UInt16 7] = .ok 7 [] ∧
    Decoder.read_u8 [.UInt32 7] = .ok 7 [] ∧
    Decoder.read_u8 [.UInt64 7] = .ok 7 [] ∧
    Decoder.read_u8 [.Int64 99999] =
      .err (.ExpectedError "Number" (toString (99999 : Int))) ∧
    Decoder.read_u8 [.Double ⟨"1.5"⟩] =
      .err (.ExpectedError "Integer" (F64.render ⟨"1.5"⟩)) ∧
    Decoder.read_u8 [.Str "x"] =
      .err (.ExpectedError "Number" (MessageItem.Str "x").debugFmt) ∧
    decode Decoder.read_u8 [.Int64 99999] =
      .err (.ExpectedError "Number" "99999") :=
  C5_read_int_table 7 99999 ⟨"1.5"⟩ [] (by decide) (by decide)

/-- C6 counterexample: an `ObjectPath` tag does not proceed to variant
matching — `read_enum_variant` accepts only `Str`, so decoding
`ObjectPath("a")` against `{A, B}` fails with
`ExpectedError("String or Object", ...)`, not with the
`UnknownVariantError("a")` that matching would produce. -/
theorem C6_counterexample :
    decode TestEnum.dec [.ObjectPath "a"] =
      .err (.ExpectedError "String or Object" "ObjectPath(\"a\")") ∧
    decode TestEnum.dec [.ObjectPath "a"] ≠
      .err (.UnknownVariantError "a") := by
  refine ⟨rfl, ?_⟩
  intro h
  injection h with h1
  exact DecoderError.noConfusion h1

/-- C6 (amended): an enum decode pops exactly one value and proceeds to
variant matching if and only if that value is a `Str`; every other kind —
`ObjectPath` included — fails with
`ExpectedError("String or Object", <rendered-value>)`. -/
theorem C6_enum_tag_kinds (names : List String) (f : Nat → DecodeM TestEnum)
    (st : Stack) (s p : String) (b : Bool) (xs : List MessageItem) :
    Decoder.read_enum_variant names f (.Str s :: st) =
      (match listPosition (fun n => n == s) names with
       | some idx => f idx st
       | none => .err (.UnknownVariantError s)) ∧
    Decoder.read_enum_variant names f (.ObjectPath p :: st) =
      .err (.ExpectedError "String or Object"
        (MessageItem.ObjectPath p).debugFmt) ∧
    Decoder.read_enum_variant names f (.Bool b :: st) =
      .err (.ExpectedError "String or Object" (MessageItem.Bool b).debugFmt) ∧
    Decoder.read_enum_variant names f (.Struct xs :: st) =
      .err (.ExpectedError "String or Object"
        (MessageItem.Struct xs).debugFmt) :=
  ⟨rfl, rfl, rfl, rfl⟩

/-- C7: a popped `Str` tag matching none of the declared variant names
under exact (case-sensitive) string equality fails with
`UnknownVariantError` carrying the tag; in particular `Str("z")` against
`{A, B}` gives `UnknownVariantError("z")`, and the lower-cased `Str("a")`
likewise fails against the declared name `"A"` (no case folding). -/
theorem C7_unknown_variant (names : List String) (f : Nat → DecodeM TestEnum)
    (s : String) (st : Stack) (h : ∀ n ∈ names, n ≠ s) :
    Decoder.read_enum_variant names f (.Str s :: st) =
      .err (.UnknownVariantError s) ∧
    decode TestEnum.dec [.Str "z"] = .err (.UnknownVariantError "z") ∧
    decode TestEnum.dec [.Str "a"] = .err (.UnknownVariantError "a") := by
  refine ⟨?_, rfl, rfl⟩
  simp [Decoder.read_enum_variant, DecodeM.bind, Decoder.pop,
    listPosition_eq_none names h]

/-- C7 witness: the unknown-variant failure at the concrete tag "z"
against the declared names of `TestEnum`. -/
theorem C7_unknown_variant_witness :
    Decoder.read_enum_variant ["A", "B"]
        (fun _ => fun st => .ok TestEnum.A st) [.Str "z"] =
      .err (.UnknownVariantError "z") ∧
    decode TestEnum.dec [.Str "z"] = .err (.UnknownVariantError "z") ∧
    decode TestEnum.dec [.Str "a"] = .err (.UnknownVariantError "a") :=
  C7_unknown_variant ["A", "B"] (fun _ => fun st => .ok TestEnum.A st) "z" []
    (by decide)

/-- C10: for a struct-like enum variant, decoding consumes the tag string
and then pops each field from the same working stack (no nested `Struct`
is required), while encoding the same variant produces a single nested
`Struct` holding only the field values and no tag; consequently the
round-trip fails — decoding the encoder's output errs instead of
returning the original value. -/
theorem C10_struct_variant_asymmetry (x : Int)
    (hx : -(2 ^ 63) ≤ x ∧ x ≤ 2 ^ 63 - 1) :
    encode (EV.enc (EV.V x)) = .ok (.Struct [.Int64 x]) ∧
    decode EV.dec [.Str "V", .Int64 x] = .ok (EV.V x) ∧
    decode EV.dec [.Struct [.Int64 x]] =
      .err (.ExpectedError "String or Object"
        (MessageItem.Struct [.Int64 x]).debugFmt) ∧
    decode EV.dec [.Struct [.Int64 x]] ≠ .ok (EV.V x) := by
  refine ⟨rfl, ?_, rfl, ?_⟩
  · have hfield : Decoder.read_i64 (.Int64 x :: []) = .ok x [] :=
      readIntAs_int64 [] hx.1 hx.2
    simp [decode, EV.dec, Decoder.read_enum, Decoder.read_enum_struct_variant,
      Decoder.read_enum_variant, Decoder.read_enum_struct_variant_field,
      Decoder.read_enum_variant_arg, DecodeM.bind, Decoder.pop, listPosition,
      hfield]
  · intro h
    injection h

/-- C10 witness: the struct-variant asymmetry at the concrete field
value 5. -/
theorem C10_struct_variant_asymmetry_witness :
    encode (EV.enc (EV.V 5)) = .ok (.Struct [.Int64 5]) ∧
    decode EV.dec [.Str "V", .Int64 5] = .ok (EV.V 5) ∧
    decode EV.dec [.Struct [.Int64 5]] =
      .err (.ExpectedError "String or Object"
        (MessageItem.Struct [.Int64 5]).debugFmt) ∧
    decode EV.dec [.Struct [.Int64 5]] ≠ .ok (EV.V 5) :=
  C10_struct_variant_asymmetry 5 (by decide)
